import Mathlib

/-!
Verification of the price-estimation core of a real-estate investment MCP
server.  The Lean definitions below are a shallow embedding of
`src/real_estate_mcp/utils/price_estimation.py` and
`src/real_estate_mcp/utils/market_data_client.py`.

Modelling conventions:
* Python floats are modelled as `ℚ`; `x ** 0.5` (square root) is modelled by
  an abstract parameter `sq : ℚ → ℚ` since both the code and the spec apply
  the same square root.
* `round(x, -4)` (Python 3 banker's rounding to the nearest 10,000) is
  `roundNeg4`, built on round-half-to-even.
* Python dict-based records become structures with `Option` fields where the
  code uses `dict.get` with a default.
* `datetime.now().year` is an explicit `currentYear : ℤ` parameter; cache
  timestamps are an explicit `now : ℚ` (hours).
* Exception-based fallbacks become `Except` parameters: the outcome of the
  fallible upstream call is passed in, and the embedded function performs the
  `try/except` dispatch exactly as the source does.
-/

/-- Round-half-to-even of a rational to an integer, the rounding used by
Python 3's builtin `round`. -/
def roundHalfEven (q : ℚ) : ℤ :=
  let f := ⌊q⌋
  let r := q - f
  if r < 1/2 then f
  else if 1/2 < r then f + 1
  else if f % 2 = 0 then f else f + 1

/-- Python `round(x, -4)`: round to the nearest multiple of 10,000
(ties to even). -/
def roundNeg4 (x : ℚ) : ℚ := (roundHalfEven (x / 10000) : ℚ) * 10000

/-- Python `int(x)`: truncation toward zero. -/
def truncInt (q : ℚ) : ℤ := if 0 ≤ q then ⌊q⌋ else -⌊-q⌋

/-- Python `round(x, 1)`: round to one decimal place (ties to even). -/
def roundTo1 (q : ℚ) : ℚ := (roundHalfEven (q * 10) : ℚ) / 10

/-- `hasSub pat l` decides whether `pat` occurs as a contiguous run of `l`. -/
def hasSub (pat : List Char) : List Char → Bool
  | [] => pat.isEmpty
  | c :: t => pat.isPrefixOf (c :: t) || hasSub pat t

/-- Python `pat in s` on strings: substring containment. -/
def strContains (s pat : String) : Bool := hasSub pat.data s.data

/-- Python `min(list)` (only ever applied to nonempty lists in the source;
`0` is a junk value for `[]`). -/
def listMin : List ℚ → ℚ
  | [] => 0
  | h :: t => t.foldl min h

/-- Python `max(list)` (only ever applied to nonempty lists in the source). -/
def listMax : List ℚ → ℚ
  | [] => 0
  | h :: t => t.foldl max h

/-- `price_estimation.MIN_COMPARABLE_PROPERTIES` (the active constant is 2;
the adjacent comment in the source still says 3). -/
def MIN_COMPARABLE_PROPERTIES : ℕ := 2

/-- One mock/fetched comparable sale
(`market_data_client._generate_mock_comparable_data` record; the
presentation-only `id` and `sale_date` strings are omitted).  Fields that
`_adjust_comparable_price` reads through `dict.get` with a default are
`Option`-valued. -/
structure Comparable where
  price : ℚ
  floor_area : Option ℚ
  building_age : Option ℤ
  distance : Option ℚ
  property_type : String
  price_per_sqm : ℚ
deriving DecidableEq

/-- `price_range` sub-dict of the comparable approach result. -/
structure PriceRange where
  min : ℚ
  max : ℚ
  median : ℚ
deriving DecidableEq

/-- A per-method estimation result dict.  The union of the keys produced by
the three approaches; absent keys are `none` / `0` / `[]`. -/
structure ApproachResult where
  estimated_price : Option ℚ := none
  comparable_count : ℕ := 0
  price_range : Option PriceRange := none
  comparables : List Comparable := []
  area_yield_rate : Option ℚ := none
  annual_rent : Option ℚ := none
  land_price_per_sqm : Option ℚ := none
  building_value : Option ℚ := none
  error : Option String := none
deriving DecidableEq

/-- The `results["estimates"]` dict: at most one result per method, inserted
in the order comparable, yield_based, market_based
(`estimate_price`, price_estimation.py lines 86-97). -/
structure Estimates where
  comparable : Option ApproachResult
  yield_based : Option ApproachResult
  market_based : Option ApproachResult
deriving DecidableEq

/-- `estimates.items()` in Python insertion order. -/
def Estimates.items (e : Estimates) : List (String × ApproachResult) :=
  (e.comparable.toList.map (fun r => ("comparable", r))) ++
  (e.yield_based.toList.map (fun r => ("yield_based", r))) ++
  (e.market_based.toList.map (fun r => ("market_based", r)))

/-- `estimates.values()` in Python insertion order. -/
def Estimates.values (e : Estimates) : List ApproachResult :=
  e.comparable.toList ++ e.yield_based.toList ++ e.market_based.toList

/-- The fixed weight table of `_calculate_weighted_average`, including the
`.get(method, 0.3)` default for unknown method names. -/
def methodWeight (m : String) : ℚ :=
  if m = "comparable" then 4/10
  else if m = "yield_based" then 4/10
  else if m = "market_based" then 2/10
  else 3/10

/-- The `final_estimate` dict. -/
structure FinalEstimate where
  price : Option ℚ
  methods_used : List String
  confidence : String
deriving DecidableEq

/-- `PropertyPriceEstimator._calculate_weighted_average`
(price_estimation.py lines 410-428).  The single Python loop that builds
`parts` and `used` is modelled by one `filterMap` producing
(method, price) pairs, then projecting. -/
def _calculate_weighted_average (e : Estimates) : FinalEstimate :=
  let contribs := e.items.filterMap
    (fun mr => mr.2.estimated_price.map (fun p => (mr.1, p)))
  let parts := contribs.map (fun mp => mp.2 * methodWeight mp.1)
  let used := contribs.map (fun mp => mp.1)
  if parts = [] then { price := none, methods_used := [], confidence := "low" }
  else
    { price := some (roundNeg4 (parts.sum / (used.map methodWeight).sum)),
      methods_used := used,
      confidence := if 2 ≤ used.length then "high" else "medium" }

/-- `PropertyPriceEstimator._calculate_confidence_score`
(price_estimation.py lines 430-451), with `var ** 0.5` as the abstract
square root `sq`. -/
def _calculate_confidence_score (sq : ℚ → ℚ) (e : Estimates) : ℚ :=
  let valid := e.values.filter (fun r => r.estimated_price.isSome)
  let score : ℚ := min ((valid.length : ℚ) * (3/10)) (6/10)
  let comp_count : ℕ := (match e.comparable with
    | some r => r.comparable_count
    | none => 0)
  let score := score + min ((comp_count : ℚ) * (1/10)) (2/10)
  let prices := e.values.filterMap (fun r => r.estimated_price)
  let score := if 2 ≤ prices.length then
      let avg := prices.sum / (prices.length : ℚ)
      let var := (prices.map (fun p => (p - avg) ^ 2)).sum / (prices.length : ℚ)
      let cv := if avg = 0 then 0 else sq var / avg
      score + max 0 ((2/10) - cv * (1/2))
    else score
  min score 1

/-- The numeric-score → label map applied in `estimate_price`
(price_estimation.py lines 107-110). -/
def confidenceLabel (score : ℚ) : String :=
  if 7/10 ≤ score then "high" else if 4/10 ≤ score then "medium" else "low"

/-- Modelled from the spec's words for claim C2 (the refinement target):
score = min(A+B+C, 1) with A = min(0.3·n, 0.6) for n the number of methods
with a present estimated_price, B = min(0.1·comparable_count, 0.2), and C,
added only when n ≥ 2, = max(0, 0.2 − 0.5·cv), cv = sqrt(population
variance)/mean of the successful prices. -/
def specConfidenceScore (sq : ℚ → ℚ) (e : Estimates) : ℚ :=
  let prices := e.values.filterMap (fun r => r.estimated_price)
  let n : ℕ := prices.length
  let contribA : ℚ := min ((3/10) * (n : ℚ)) (6/10)
  let comp_count : ℕ := (match e.comparable with
    | some r => r.comparable_count
    | none => 0)
  let contribB : ℚ := min ((1/10) * (comp_count : ℚ)) (2/10)
  let mean := prices.sum / (prices.length : ℚ)
  let popVar := (prices.map (fun p => (p - mean) ^ 2)).sum / (prices.length : ℚ)
  let cv := sq popVar / mean
  let contribC : ℚ := if 2 ≤ n then max 0 ((2/10) - (1/2) * cv) else 0
  min (contribA + contribB + contribC) 1

lemma length_filter_isSome_eq_length_filterMap (l : List ApproachResult) :
    (l.filter (fun r => r.estimated_price.isSome)).length
      = (l.filterMap (fun r => r.estimated_price)).length := by
  induction l with
  | nil => rfl
  | cons h t ih =>
    by_cases hh : h.estimated_price.isSome
    · obtain ⟨p, hp⟩ := Option.isSome_iff_exists.mp hh
      simp [List.filter_cons, List.filterMap_cons, hh, hp, ih]
    · have hp : h.estimated_price = none := Option.not_isSome_iff_eq_none.mp hh
      simp [List.filter_cons, List.filterMap_cons, hh, hp, ih]

example :
    _calculate_weighted_average
      { comparable := some { estimated_price := some 28000000 },
        yield_based := some { estimated_price := some 29000000 },
        market_based := none }
      = { price := some 28500000, methods_used := ["comparable", "yield_based"],
          confidence := "high" } := by
  have h : ((28000000 : ℚ) * (4/10) + 29000000 * (4/10)) / (4/10 + 4/10)
      = 28500000 := by norm_num
  simp only [_calculate_weighted_average, Estimates.items, Option.toList,
    List.map, List.append_nil, List.filterMap, Option.map, methodWeight]
  norm_num [roundNeg4, roundHalfEven]
  exact fun hcon => absurd hcon (by simp)

/-- The property descriptor dict handed to the estimator.  Fields read via
`dict.get` with a default are `Option`-valued; defaults are applied at the
use sites, exactly as in the source. -/
structure PropertyData where
  address : String := ""
  type : Option String := none
  construction_year : Option ℤ := none
  floor_area : Option ℚ := none
  monthly_rent : ℚ := 0
  purchase_price : Option ℚ := none
deriving DecidableEq

/-- The shapes of the recommendation strings appended by
`_generate_recommendations`; the rendered Japanese text is presentation
only, the constructor (and embedded percentage) captures which message is
emitted. -/
inductive RecMsg where
  | insufficientData
  | appreciation (diffRel : ℚ)
  | depreciation (diffRel : ℚ)
  | minorChange
  | confidenceHigh
  | confidenceMedium
  | confidenceLow
  | highYieldArea
  | lowYieldArea
deriving DecidableEq

/-- `PropertyPriceEstimator._generate_recommendations`
(price_estimation.py lines 453-484).  Takes the pieces of the `results`
dict that the source reads: `final_estimate`, `confidence_score`,
`estimates`, plus `property_data`. -/
def _generate_recommendations (fe : FinalEstimate) (confidence : ℚ)
    (e : Estimates) (property_data : PropertyData) : List RecMsg :=
  match fe.price with
  | none => [RecMsg.insufficientData]
  | some est_price =>
    let purchase_price := property_data.purchase_price.getD 0
    let recs1 : List RecMsg :=
      if 0 < purchase_price then
        let diffRel := (est_price - purchase_price) / purchase_price
        if 1/10 < diffRel then [RecMsg.appreciation diffRel]
        else if diffRel < -(1/10) then [RecMsg.depreciation |diffRel|]
        else [RecMsg.minorChange]
      else []
    let recs2 := recs1 ++
      [if 7/10 ≤ confidence then RecMsg.confidenceHigh
       else if 4/10 ≤ confidence then RecMsg.confidenceMedium
       else RecMsg.confidenceLow]
    recs2 ++
      (match (e.yield_based.getD {}).area_yield_rate with
       | none => []
       | some y =>
         if 6 < y then [RecMsg.highYieldArea]
         else if y < 4 then [RecMsg.lowYieldArea]
         else [])

/-- The full method set `["comparable", "yield_based", "market_based"]`. -/
def fullMethods : List String := ["comparable", "yield_based", "market_based"]

/-- The estimation-methods normalization of `server._estimate_sale_price`
(server.py lines 514-527): a missing or empty list defaults to the full
set, the one-element sentinel list `["all"]` expands to the full set, and
`"market_data"` / `"market"` are renamed to `"market_based"`. -/
def serverNormalizeMethods (raw : Option (List String)) : List String :=
  let raw1 := match raw with
    | none => fullMethods
    | some [] => fullMethods
    | some l => l
  let raw2 := if raw1 = ["all"] then fullMethods else raw1
  raw2.map (fun m => if m = "market_data" ∨ m = "market" then "market_based" else m)

/-- The `results` dict returned by `estimate_price` (multi-method mode),
including the flattened legacy keys. -/
structure EstimationResult where
  estimation_methods : List String
  estimates : Estimates
  final_estimate : FinalEstimate
  confidence_score : ℚ
  recommendations : List RecMsg
  confidence : String
  recommendation : Option RecMsg
deriving DecidableEq

/-- `PropertyPriceEstimator.estimate_price` in multi-method mode
(price_estimation.py lines 75-114).  The three per-method approach results
(each an async call in the source) are passed in as values `compR`,
`yieldR`, `marketR`; the aggregator includes each one exactly when its
method name is in the (empty-defaulted) requested list. -/
def estimate_price (sq : ℚ → ℚ) (compR yieldR marketR : ApproachResult)
    (property_data : PropertyData) (estimation_methods : List String) :
    EstimationResult :=
  let ms := if estimation_methods = [] then fullMethods else estimation_methods
  let est : Estimates :=
    { comparable := if "comparable" ∈ ms then some compR else none,
      yield_based := if "yield_based" ∈ ms then some yieldR else none,
      market_based := if "market_based" ∈ ms then some marketR else none }
  let fe := _calculate_weighted_average est
  let score := _calculate_confidence_score sq est
  let recs := _generate_recommendations fe score est property_data
  { estimation_methods := ms,
    estimates := est,
    final_estimate := fe,
    confidence_score := score,
    recommendations := recs,
    confidence := confidenceLabel score,
    recommendation := recs.head? }

/-- The building-age computation of `_comparable_estimation_approach`
(price_estimation.py lines 147-150):
`datetime.now().year - construction_year if construction_year else 15`
(Python truthiness: `0` and `None` both fall back to 15). -/
def buildingAgeOf (currentYear : ℤ) (construction_year : Option ℤ) : ℤ :=
  match construction_year with
  | some y => if y = 0 then 15 else currentYear - y
  | none => 15

/-- `PropertyPriceEstimator._adjust_comparable_price`
(price_estimation.py lines 380-397). -/
def _adjust_comparable_price (currentYear : ℤ) (comparable : Comparable)
    (property_data : PropertyData) : ℚ :=
  let base_price := comparable.price
  let target_area := property_data.floor_area.getD 50
  let comp_area := comparable.floor_area.getD target_area
  let areaAdj := if comp_area ≠ 0 then target_area / comp_area else 1
  let adjusted := base_price * areaAdj
  let target_age : ℤ :=
    currentYear - property_data.construction_year.getD currentYear
  let comp_age : ℤ := comparable.building_age.getD target_age
  let age_adjust : ℚ := ((comp_age : ℚ) - (target_age : ℚ)) * (1/100)
  let adjusted := adjusted * (1 - age_adjust)
  let distance := comparable.distance.getD 500
  let distance_factor := max (95/100) (1 - (distance / 1000) * (5/100))
  adjusted * distance_factor

/-- The post-fetch part of
`PropertyPriceEstimator._comparable_estimation_approach`
(price_estimation.py lines 168-188): the comparables list returned by the
market-data client is a parameter (the preceding geocoding and fetch are
modelled in `comparableApproachRun` below). -/
def _comparable_estimation_approach (currentYear : ℤ)
    (comparables : List Comparable) (property_data : PropertyData) :
    ApproachResult :=
  if comparables.length < MIN_COMPARABLE_PROPERTIES then
    { estimated_price := none,
      error := some "類似物件が不足しています",
      comparable_count := comparables.length }
  else
    let adjusted_prices :=
      comparables.map (fun c => _adjust_comparable_price currentYear c property_data)
    let avg_price := adjusted_prices.sum / (adjusted_prices.length : ℚ)
    { estimated_price := some (roundNeg4 avg_price),
      comparable_count := adjusted_prices.length,
      price_range := some
        { min := roundNeg4 (listMin adjusted_prices),
          max := roundNeg4 (listMax adjusted_prices),
          median := (adjusted_prices.mergeSort
            (fun a b => decide (a ≤ b))).getD (adjusted_prices.length / 2) 0 },
      comparables := comparables.take 5 }

/-- `PropertyPriceEstimator._estimate_building_value`
(price_estimation.py lines 399-408). -/
def _estimate_building_value (currentYear : ℤ) (construction_year : ℤ)
    (floor_area : ℚ) (property_type : String) : ℚ :=
  let building_age : ℤ := currentYear - construction_year
  let base_cost : ℚ :=
    if property_type = "apartment" then 180000
    else if property_type = "house" then 200000
    else if property_type = "small_building" then 250000
    else 180000
  let new_value := base_cost * floor_area
  let depreciation_rate : ℚ := 2/100
  let remaining_frac := max (2/10) (1 - (building_age : ℚ) * depreciation_rate)
  new_value * remaining_frac

/-- The land-price record returned by the market-data client
(`market_data_client.get_land_price_data`); `count` / `price_range`
sub-fields of the API path are presentation only and omitted. -/
structure LandPriceData where
  price_per_sqm : ℚ
  source : String
  error : Option String := none
deriving DecidableEq

/-- `PropertyPriceEstimator._market_trend_approach`
(price_estimation.py lines 341-364).  The outcome of the (fallible) land
price lookup is a parameter: `.error` is the `except (ValueError,
RuntimeError)` branch. -/
def _market_trend_approach (currentYear : ℤ)
    (land_price : Except String LandPriceData)
    (property_data : PropertyData) : ApproachResult :=
  match land_price with
  | .error e => { estimated_price := none, error := some ("地価取得失敗: " ++ e) }
  | .ok lp =>
    let construction_year := property_data.construction_year.getD 2000
    let floor_area := property_data.floor_area.getD 50
    let property_type := property_data.type.getD "apartment"
    let building_value :=
      _estimate_building_value currentYear construction_year floor_area property_type
    let land_component := lp.price_per_sqm * floor_area
    let estimated_price := land_component + building_value
    { estimated_price := some (roundNeg4 estimated_price),
      land_price_per_sqm := some lp.price_per_sqm,
      building_value := some building_value }

/-- The market-trend record returned by
`market_data_client.get_market_trends`. -/
structure TrendData where
  price_trend : String
  demand_level : String
  supply_level : String
  market_outlook : String
  confidence : String
  error : Option String := none
deriving DecidableEq

/-- The payloads stored in the client's single cache dict, tagged by the
operation that wrote them. -/
inductive CacheVal where
  | land (v : LandPriceData)
  | yld (v : ℚ)
  | comps (v : List Comparable)
  | trends (v : TrendData)
deriving DecidableEq

/-- The mutable state of `MarketDataClient`: the `cache` and `cache_expiry`
dicts (expiry timestamps in hours). -/
structure MarketDataClient where
  cache : String → Option CacheVal
  cache_expiry : String → Option ℚ

/-- A freshly constructed `MarketDataClient` (both dicts empty). -/
def initialClient : MarketDataClient :=
  { cache := fun _ => none, cache_expiry := fun _ => none }

/-- `MarketDataClient._get_cache_key` (market_data_client.py lines 92-95):
the canonical `method_<params>` string.  The Python code compresses the
sorted `k:v` parameter string with `hash`; the spec accepts collisions as
out of scope, so the hash is modelled as the identity on the canonical
string. -/
def _get_cache_key (method : String) (params : List (String × String)) : String :=
  method ++ "_" ++ String.intercalate "_"
    ((params.mergeSort (fun a b => decide (a.1 ≤ b.1))).map
      (fun kv => kv.1 ++ ":" ++ kv.2))

/-- `MarketDataClient._is_cache_valid` (market_data_client.py lines 97-106). -/
def _is_cache_valid (c : MarketDataClient) (cache_key : String) (now : ℚ) : Bool :=
  match c.cache cache_key with
  | none => false
  | some _ =>
    match c.cache_expiry cache_key with
    | none => false
    | some expiry_time => now < expiry_time

/-- `MarketDataClient._set_cache` (market_data_client.py lines 108-111):
store the value and stamp `now + hours`. -/
def _set_cache (c : MarketDataClient) (cache_key : String) (data : CacheVal)
    (now : ℚ) (hours : ℚ) : MarketDataClient :=
  { cache := fun k => if k = cache_key then some data else c.cache k,
    cache_expiry := fun k =>
      if k = cache_key then some (now + hours) else c.cache_expiry k }

/-- The cache-read pattern shared by all four client operations:
`if self._is_cache_valid(key): return self.cache[key]`, else miss. -/
def cacheRead (c : MarketDataClient) (cache_key : String) (now : ℚ) :
    Option CacheVal :=
  if _is_cache_valid c cache_key now then c.cache cache_key else none

/-- `MarketDataClient.get_land_price_data`
(market_data_client.py lines 113-128).  `upstream` is the outcome of
`_fetch_land_price_from_api`; `.error` is the `except (ValueError,
RuntimeError)` branch, which returns the fixed fallback record without
touching the cache.  (A hit whose payload carries another operation's tag
cannot arise under the key discipline and falls through to the fetch.) -/
def get_land_price_data (c : MarketDataClient) (address : String) (now : ℚ)
    (upstream : Except String LandPriceData) :
    LandPriceData × MarketDataClient :=
  let cache_key := _get_cache_key "land_price" [("address", address)]
  match cacheRead c cache_key now with
  | some (CacheVal.land v) => (v, c)
  | _ =>
    match upstream with
    | .error e =>
      ({ price_per_sqm := 400000, source := "デフォルト値", error := some e }, c)
    | .ok result =>
      (result, _set_cache c cache_key (CacheVal.land result) now (24 * 30))

/-- `MarketDataClient._fetch_area_yield_from_sources`
(market_data_client.py lines 228-247): the deterministic region-sensitive
yield heuristic. -/
def _fetch_area_yield_from_sources (address : String) : ℚ :=
  if strContains address "東京都" then
    (if strContains address "港区" || strContains address "千代田区"
        || strContains address "中央区" then 38/10
     else if strContains address "新宿区" || strContains address "渋谷区"
        || strContains address "品川区" then 42/10
     else 48/10)
  else if strContains address "大阪" then
    (if strContains address "中央区" || strContains address "北区" then 5
     else 55/10)
  else if strContains address "名古屋" || strContains address "愛知県" then 58/10
  else if strContains address "福岡" then 62/10
  else 6

/-- The `default_yield_rates` table lookup in the `except RuntimeError`
branch of `get_area_yield_rate` (market_data_client.py lines 216-224):
first substring match in insertion order 東京都, 神奈川県, 大阪府, その他,
falling back to the table's `その他` entry (6.0). -/
def defaultYieldLookup (address : String) : ℚ :=
  if strContains address "東京都" then 45/10
  else if strContains address "神奈川県" then 5
  else if strContains address "大阪府" then 55/10
  else 6

/-- `MarketDataClient.get_area_yield_rate`
(market_data_client.py lines 207-226).  `upstream` is the outcome of
`_fetch_area_yield_from_sources` (a pure function in the source, so `.ok`
in every real run; `.error` is the `except RuntimeError` branch, which
returns the configured default without touching the cache). -/
def get_area_yield_rate (c : MarketDataClient) (address : String) (now : ℚ)
    (upstream : Except Unit ℚ) : ℚ × MarketDataClient :=
  let cache_key := _get_cache_key "area_yield" [("address", address)]
  match cacheRead c cache_key now with
  | some (CacheVal.yld v) => (v, c)
  | _ =>
    match upstream with
    | .error _ => (defaultYieldLookup address, c)
    | .ok yield_rate =>
      (yield_rate, _set_cache c cache_key (CacheVal.yld yield_rate) now (24 * 7))

/-- A deterministic stand-in for Python's `random` module: draw `i` of
`randint`/`uniform` is `randInt i lo hi` / `uniform i a b`, with the
`randint` range guarantee carried as a proof field. -/
structure RandOracle where
  randInt : ℕ → ℤ → ℤ → ℤ
  uniform : ℕ → ℚ → ℚ → ℚ
  randInt_mem : ∀ i lo hi, lo ≤ hi → lo ≤ randInt i lo hi ∧ randInt i lo hi ≤ hi

/-- `MarketDataClient._base_price_per_sqm`
(market_data_client.py lines 338-345). -/
def _base_price_per_sqm (property_type : String) : ℚ :=
  if property_type = "apartment" then 600000
  else if property_type = "house" then 500000
  else if property_type = "small_building" then 700000
  else 600000

/-- `MarketDataClient._generate_mock_comparable_data`
(market_data_client.py lines 296-336): `random.randint(3, 8)` records,
each jittered in area, age, distance and price, sorted by distance
ascending.  Draw indices replace the sequential consumption of the global
`random` stream; `sale_date`/`id` are omitted as presentation only. -/
def _generate_mock_comparable_data (o : RandOracle) (property_type : String)
    (building_age : ℤ) (floor_area : ℚ) : List Comparable :=
  let base_price_per_sqm := _base_price_per_sqm property_type
  let adjusted_price_per_sqm :=
    base_price_per_sqm * max (3/10) (1 - (building_age : ℚ) * (15/1000))
  let count := (o.randInt 0 3 8).toNat
  let build_one := fun (idx : ℕ) =>
    let comp_area := floor_area * o.uniform (2*idx) (8/10) (13/10)
    let comp_age := building_age + o.randInt (2*idx+1) (-3) 5
    let distance : ℤ := o.randInt (2*idx+2) 100 800
    let distance_factor := max (9/10) (1 - ((distance : ℚ) / 1000) * (5/100))
    let price_per_sqm :=
      adjusted_price_per_sqm * distance_factor * o.uniform (2*idx+1) (9/10) (11/10)
    { price := (truncInt (price_per_sqm * comp_area) : ℚ),
      floor_area := some (roundTo1 comp_area),
      building_age := some (max 0 comp_age),
      distance := some (distance : ℚ),
      property_type := property_type,
      price_per_sqm := (truncInt price_per_sqm : ℚ) : Comparable }
  ((List.range count).map build_one).mergeSort
    (fun a b => decide (a.distance.getD 500 ≤ b.distance.getD 500))

/-- `MarketDataClient._fetch_comparable_sales_from_api`
(market_data_client.py lines 281-294): no real portal API exists, the
fetch returns the mock data and never fails. -/
def _fetch_comparable_sales_from_api (o : RandOracle) (property_type : String)
    (building_age : ℤ) (floor_area : ℚ) : List Comparable :=
  _generate_mock_comparable_data o property_type building_age floor_area

/-- `MarketDataClient.search_comparable_sales`
(market_data_client.py lines 249-279).  `upstream` is the outcome of
`_fetch_comparable_sales_from_api`; on `.ok` the result is cached for 24h,
on `.error` (the `except (RuntimeError, ValueError)` branch) the mock
fallback is generated and returned without touching the cache. -/
def search_comparable_sales (c : MarketDataClient) (lat lon : ℚ)
    (property_type : String) (building_age : ℤ) (floor_area : ℚ) (now : ℚ)
    (upstream : Except Unit (List Comparable)) (o : RandOracle) :
    List Comparable × MarketDataClient :=
  let cache_key := _get_cache_key "comparable_sales"
    [("lat", toString lat), ("lon", toString lon),
     ("type", property_type), ("age", toString building_age),
     ("area", toString floor_area)]
  match cacheRead c cache_key now with
  | some (CacheVal.comps v) => (v, c)
  | _ =>
    match upstream with
    | .ok comparables =>
      (comparables, _set_cache c cache_key (CacheVal.comps comparables) now 24)
    | .error _ =>
      (_generate_mock_comparable_data o property_type building_age floor_area, c)

/-- `MarketDataClient._fetch_market_trends`
(market_data_client.py lines 371-418): deterministic region-sensitive
categorical judgment, dict `update`s written out as full records. -/
def _fetch_market_trends (address : String) (_property_type : String) : TrendData :=
  if strContains address "東京都" then
    (if strContains address "港区" || strContains address "千代田区"
        || strContains address "中央区" then
      { price_trend := "上昇", demand_level := "高", supply_level := "少",
        market_outlook := "良好", confidence := "高" }
     else
      { price_trend := "微増", demand_level := "中程度", supply_level := "中程度",
        market_outlook := "やや良好", confidence := "中" })
  else if strContains address "大阪" || strContains address "名古屋"
      || strContains address "福岡" then
    { price_trend := "微増", demand_level := "中程度", supply_level := "中程度",
      market_outlook := "安定", confidence := "中" }
  else
    { price_trend := "横ばい", demand_level := "中程度", supply_level := "中程度",
      market_outlook := "安定", confidence := "中" }

/-- `MarketDataClient.get_market_trends`
(market_data_client.py lines 347-369).  `upstream` is the outcome of
`_fetch_market_trends` (pure in the source, so `.ok` in every real run);
`.error` is the `except RuntimeError` branch, which returns the neutral
fallback record without touching the cache. -/
def get_market_trends (c : MarketDataClient) (address : String)
    (_property_type : String) (now : ℚ)
    (upstream : Except String TrendData) : TrendData × MarketDataClient :=
  let cache_key := _get_cache_key "market_trends"
    [("address", address), ("type", _property_type)]
  match cacheRead c cache_key now with
  | some (CacheVal.trends v) => (v, c)
  | _ =>
    match upstream with
    | .error e =>
      ({ price_trend := "横ばい", demand_level := "中程度",
         supply_level := "中程度", market_outlook := "安定",
         confidence := "低", error := some e }, c)
    | .ok trends =>
      (trends, _set_cache c cache_key (CacheVal.trends trends) now 24)

/-- The fetch-and-estimate pipeline of
`PropertyPriceEstimator._comparable_estimation_approach`
(price_estimation.py lines 146-188) after geocoding: building age /
floor area / type defaults, comparable search through the client, then the
post-fetch estimation.  `coords` is the geocoding outcome (`none` is the
coordinate-failure early return). -/
def comparableApproachRun (currentYear : ℤ) (c : MarketDataClient) (now : ℚ)
    (o : RandOracle) (coords : Option (ℚ × ℚ))
    (property_data : PropertyData) : ApproachResult × MarketDataClient :=
  match coords with
  | none =>
    ({ estimated_price := none, error := some "座標取得失敗",
       comparable_count := 0 }, c)
  | some (lat, lon) =>
    let building_age := buildingAgeOf currentYear property_data.construction_year
    let floor_area := property_data.floor_area.getD 50
    let property_type := property_data.type.getD "apartment"
    let fetched := _fetch_comparable_sales_from_api o property_type
      building_age floor_area
    let result := search_comparable_sales c lat lon property_type building_age
      floor_area now (.ok fetched) o
    (_comparable_estimation_approach currentYear result.1 property_data, result.2)

/-- C5: a cache value set at time T with TTL h is returned by a read at
every T' < T+h, and a read at every T' ≥ T+h, or of a key that was never
set, is a miss (never stale data). -/
theorem C5_cache_ttl (c : MarketDataClient) (k : String) (v : CacheVal)
    (now h t' : ℚ) :
    cacheRead (_set_cache c k v now h) k t'
        = (if t' < now + h then some v else none) ∧
    cacheRead initialClient k t' = none := by
  constructor
  · by_cases ht : t' < now + h <;>
      simp [cacheRead, _is_cache_valid, _set_cache, ht]
  · simp [cacheRead, _is_cache_valid, initialClient]

/-- C3: a requested method list that is absent or the explicit sentinel
`["all"]` normalizes to the full method set, and the aggregator then
produces a per-method result for each of the three methods. -/
theorem C3_all_or_absent (sq : ℚ → ℚ) (compR yieldR marketR : ApproachResult)
    (p : PropertyData) (raw : Option (List String))
    (h : raw = none ∨ raw = some ["all"]) :
    serverNormalizeMethods raw = fullMethods ∧
    (estimate_price sq compR yieldR marketR p
        (serverNormalizeMethods raw)).estimation_methods = fullMethods ∧
    (estimate_price sq compR yieldR marketR p
        (serverNormalizeMethods raw)).estimates.comparable = some compR ∧
    (estimate_price sq compR yieldR marketR p
        (serverNormalizeMethods raw)).estimates.yield_based = some yieldR ∧
    (estimate_price sq compR yieldR marketR p
        (serverNormalizeMethods raw)).estimates.market_based = some marketR := by
  rcases h with h | h <;> subst h <;> exact ⟨rfl, rfl, rfl, rfl, rfl⟩

/-- Witness for C3 at the concrete inputs `none` and `some ["all"]`. -/
theorem C3_all_or_absent_witness :
    (serverNormalizeMethods none = fullMethods ∧
     (estimate_price (fun q => q) {} {} {} {}
         (serverNormalizeMethods none)).estimation_methods = fullMethods ∧
     (estimate_price (fun q => q) {} {} {} {}
         (serverNormalizeMethods none)).estimates.comparable = some {} ∧
     (estimate_price (fun q => q) {} {} {} {}
         (serverNormalizeMethods none)).estimates.yield_based = some {} ∧
     (estimate_price (fun q => q) {} {} {} {}
         (serverNormalizeMethods none)).estimates.market_based = some {}) ∧
    (serverNormalizeMethods (some ["all"]) = fullMethods) :=
  ⟨C3_all_or_absent (fun q => q) {} {} {} {} none (Or.inl rfl),
   (C3_all_or_absent (fun q => q) {} {} {} {} (some ["all"]) (Or.inr rfl)).1⟩

/-- C7 counterexample: an address matching the 福岡 (Fukuoka) branch gets
yield 6.2, which is *above* the national default 6.0 returned for an
address matching no known region — so "other major cities < national
default" fails on the code. -/
theorem C7_counterexample :
    _fetch_area_yield_from_sources "福岡市" = 62/10 ∧
    _fetch_area_yield_from_sources "北海道札幌市" = 6 ∧
    ¬ (_fetch_area_yield_from_sources "福岡市"
        < _fetch_area_yield_from_sources "北海道札幌市") := by
  refine ⟨rfl, rfl, ?_⟩
  have h1 : _fetch_area_yield_from_sources "福岡市" = 62/10 := rfl
  have h2 : _fetch_area_yield_from_sources "北海道札幌市" = 6 := rfl
  rw [h1, h2]
  norm_num

/-- C7 amended: in increasing yield the ordering core Tokyo district (3.8)
< near-core Tokyo (4.2) < outer Tokyo (4.8) < Osaka core (5.0) < Osaka
peripheral (5.5) < Nagoya/Aichi (5.8) < national default (6.0) holds, and
the chain core < peripheral < national-default holds within Tokyo and
within Osaka; but an address of 福岡 (Fukuoka), the remaining major city,
yields 6.2, strictly above the national default. -/
theorem C7_amended (a₁ aMid a₂ a₃ b₁ b₂ f : String)
    (h1t : strContains a₁ "東京都" = true)
    (h1c : strContains a₁ "港区" = true ∨ strContains a₁ "千代田区" = true ∨
      strContains a₁ "中央区" = true)
    (hmt : strContains aMid "東京都" = true)
    (hmc : strContains aMid "港区" = false ∧ strContains aMid "千代田区" = false ∧
      strContains aMid "中央区" = false)
    (hmn : strContains aMid "新宿区" = true ∨ strContains aMid "渋谷区" = true ∨
      strContains aMid "品川区" = true)
    (h2t : strContains a₂ "東京都" = true)
    (h2w : strContains a₂ "港区" = false ∧ strContains a₂ "千代田区" = false ∧
      strContains a₂ "中央区" = false ∧ strContains a₂ "新宿区" = false ∧
      strContains a₂ "渋谷区" = false ∧ strContains a₂ "品川区" = false)
    (h3 : strContains a₃ "東京都" = false ∧ strContains a₃ "大阪" = false ∧
      strContains a₃ "名古屋" = false ∧ strContains a₃ "愛知県" = false ∧
      strContains a₃ "福岡" = false)
    (hb1 : strContains b₁ "東京都" = false ∧ strContains b₁ "大阪" = true ∧
      (strContains b₁ "中央区" = true ∨ strContains b₁ "北区" = true))
    (hb2 : strContains b₂ "東京都" = false ∧ strContains b₂ "大阪" = true ∧
      strContains b₂ "中央区" = false ∧ strContains b₂ "北区" = false)
    (hf : strContains f "東京都" = false ∧ strContains f "大阪" = false ∧
      strContains f "名古屋" = false ∧ strContains f "愛知県" = false ∧
      strContains f "福岡" = true) :
    _fetch_area_yield_from_sources a₁ < _fetch_area_yield_from_sources aMid ∧
    _fetch_area_yield_from_sources aMid < _fetch_area_yield_from_sources a₂ ∧
    _fetch_area_yield_from_sources a₂ < _fetch_area_yield_from_sources b₁ ∧
    _fetch_area_yield_from_sources b₁ < _fetch_area_yield_from_sources b₂ ∧
    _fetch_area_yield_from_sources b₂ < 58/10 ∧
    (58:ℚ)/10 < _fetch_area_yield_from_sources a₃ ∧
    _fetch_area_yield_from_sources a₁ < _fetch_area_yield_from_sources a₂ ∧
    _fetch_area_yield_from_sources a₂ < _fetch_area_yield_from_sources a₃ ∧
    _fetch_area_yield_from_sources b₁ < _fetch_area_yield_from_sources a₃ ∧
    _fetch_area_yield_from_sources a₃ < _fetch_area_yield_from_sources f := by
  have e1 : _fetch_area_yield_from_sources a₁ = 38/10 := by
    rcases h1c with h | h | h <;>
      simp [_fetch_area_yield_from_sources, h1t, h]
  have eM : _fetch_area_yield_from_sources aMid = 42/10 := by
    rcases hmn with h | h | h <;>
      simp [_fetch_area_yield_from_sources, hmt, hmc.1, hmc.2.1, hmc.2.2, h]
  have e2 : _fetch_area_yield_from_sources a₂ = 48/10 := by
    simp [_fetch_area_yield_from_sources, h2t, h2w.1, h2w.2.1, h2w.2.2.1,
      h2w.2.2.2.1, h2w.2.2.2.2.1, h2w.2.2.2.2.2]
  have e3 : _fetch_area_yield_from_sources a₃ = 6 := by
    simp [_fetch_area_yield_from_sources, h3.1, h3.2.1, h3.2.2.1,
      h3.2.2.2.1, h3.2.2.2.2]
  have eb1 : _fetch_area_yield_from_sources b₁ = 5 := by
    rcases hb1.2.2 with h | h <;>
      simp [_fetch_area_yield_from_sources, hb1.1, hb1.2.1, h]
  have eb2 : _fetch_area_yield_from_sources b₂ = 55/10 := by
    simp [_fetch_area_yield_from_sources, hb2.1, hb2.2.1, hb2.2.2.1, hb2.2.2.2]
  have ef : _fetch_area_yield_from_sources f = 62/10 := by
    simp [_fetch_area_yield_from_sources, hf.1, hf.2.1, hf.2.2.1,
      hf.2.2.2.1, hf.2.2.2.2]
  rw [e1, eM, e2, e3, eb1, eb2, ef]
  norm_num

/-- Witness for C7 amended at concrete addresses of each region class. -/
theorem C7_amended_witness :
    _fetch_area_yield_from_sources "東京都港区赤坂"
      < _fetch_area_yield_from_sources "東京都新宿区" ∧
    _fetch_area_yield_from_sources "東京都新宿区"
      < _fetch_area_yield_from_sources "東京都八王子市" ∧
    _fetch_area_yield_from_sources "東京都八王子市"
      < _fetch_area_yield_from_sources "大阪市北区" ∧
    _fetch_area_yield_from_sources "大阪市北区"
      < _fetch_area_yield_from_sources "大阪市住吉区" ∧
    _fetch_area_yield_from_sources "大阪市住吉区" < 58/10 ∧
    (58:ℚ)/10 < _fetch_area_yield_from_sources "北海道札幌市" ∧
    _fetch_area_yield_from_sources "東京都港区赤坂"
      < _fetch_area_yield_from_sources "東京都八王子市" ∧
    _fetch_area_yield_from_sources "東京都八王子市"
      < _fetch_area_yield_from_sources "北海道札幌市" ∧
    _fetch_area_yield_from_sources "大阪市北区"
      < _fetch_area_yield_from_sources "北海道札幌市" ∧
    _fetch_area_yield_from_sources "北海道札幌市"
      < _fetch_area_yield_from_sources "福岡市博多区" :=
  C7_amended "東京都港区赤坂" "東京都新宿区" "東京都八王子市" "北海道札幌市"
    "大阪市北区" "大阪市住吉区" "福岡市博多区"
    rfl (Or.inl rfl) rfl ⟨rfl, rfl, rfl⟩ (Or.inl rfl) rfl
    ⟨rfl, rfl, rfl, rfl, rfl, rfl⟩ ⟨rfl, rfl, rfl, rfl, rfl⟩
    ⟨rfl, rfl, Or.inr rfl⟩ ⟨rfl, rfl, rfl, rfl⟩ ⟨rfl, rfl, rfl, rfl, rfl⟩

lemma roundHalfEven_eq_of_lt_half (q : ℚ) (n : ℤ) (h1 : (n : ℚ) ≤ q)
    (h2 : q < (n : ℚ) + 1/2) : roundHalfEven q = n := by
  have hf : ⌊q⌋ = n := Int.floor_eq_iff.mpr ⟨h1, by linarith⟩
  simp only [roundHalfEven, hf]
  rw [if_pos (by linarith)]

lemma roundNeg4_of_int_mul (n : ℤ) : roundNeg4 ((n : ℚ) * 10000) = (n : ℚ) * 10000 := by
  have h : ((n : ℚ) * 10000) / 10000 = (n : ℚ) := by norm_num
  rw [roundNeg4, h, roundHalfEven_eq_of_lt_half _ n (le_refl _) (by linarith)]

/-- The (method, price) pairs of the methods whose `estimated_price` is
present, in insertion order. -/
def includedContribs (e : Estimates) : List (String × ℚ) :=
  e.items.filterMap (fun mr => mr.2.estimated_price.map (fun p => (mr.1, p)))

lemma calculate_weighted_average_eq (e : Estimates) :
    _calculate_weighted_average e =
      if includedContribs e = [] then
        { price := none, methods_used := [], confidence := "low" }
      else
        { price := some (roundNeg4
            (((includedContribs e).map (fun mp => mp.2 * methodWeight mp.1)).sum /
             ((includedContribs e).map (fun mp => methodWeight mp.1)).sum)),
          methods_used := (includedContribs e).map Prod.fst,
          confidence :=
            if 2 ≤ (includedContribs e).length then "high" else "medium" } := by
  have hbody : _calculate_weighted_average e =
      (if (includedContribs e).map (fun mp => mp.2 * methodWeight mp.1) = [] then
        { price := none, methods_used := [], confidence := "low" }
      else
        { price := some (roundNeg4
            (((includedContribs e).map (fun mp => mp.2 * methodWeight mp.1)).sum /
             (((includedContribs e).map (fun mp => mp.1)).map methodWeight).sum)),
          methods_used := (includedContribs e).map (fun mp => mp.1),
          confidence :=
            if 2 ≤ ((includedContribs e).map (fun mp => mp.1)).length then "high"
            else "medium" } : FinalEstimate) := rfl
  rw [hbody]
  by_cases h : includedContribs e = []
  · rw [if_pos (by rw [h]; rfl), if_pos h]
  · rw [if_neg (by simpa using h), if_neg h, List.map_map, List.length_map]
    rfl

lemma includedContribs_single :
    includedContribs
      { comparable := some { estimated_price := some 28000001 },
        yield_based := none, market_based := none }
      = [("comparable", 28000001)] := rfl

/-- C1 counterexample: with no contributing method the code labels the
final estimate `"low"`, not `"medium"` (the claim says the label is never
"low" at this stage); and with a single contributing price of 28,000,001
the final price is the 10,000-rounded 28,000,000, not the exact weighted
average 28,000,001 that the claim's formula gives. -/
theorem C1_counterexample :
    (_calculate_weighted_average
      { comparable := none, yield_based := none, market_based := none
        }).confidence = "low" ∧
    "low" ≠ "medium" ∧
    (_calculate_weighted_average
      { comparable := some { estimated_price := some 28000001 },
        yield_based := none, market_based := none }).price = some 28000000 ∧
    ((28000001 : ℚ) * (4/10)) / (4/10) = 28000001 ∧
    some (28000000 : ℚ) ≠ some (28000001 : ℚ) := by
  refine ⟨rfl, by decide, ?_, by norm_num, by norm_num⟩
  rw [calculate_weighted_average_eq, if_neg (by rw [includedContribs_single]; simp),
    includedContribs_single]
  have hw : methodWeight "comparable" = 4/10 := rfl
  simp only [List.map_cons, List.map_nil, List.sum_cons, List.sum_nil, hw, add_zero]
  have h1 : (28000001 : ℚ) * (4/10) / (4/10) = 2800 * 10000 + 1 := by norm_num
  rw [h1]
  have h2 : roundNeg4 ((2800 : ℤ) * 10000 + 1) = 28000000 := by
    have h3 : (((2800 : ℤ) : ℚ) * 10000 + 1) / 10000 = 2800 + 1/10000 := by norm_num
    rw [roundNeg4, h3,
      roundHalfEven_eq_of_lt_half _ 2800 (by norm_num) (by norm_num)]
    norm_num
  exact congrArg some (by push_cast at h2 ⊢; exact h2)

/-- C1 amended: the final weighted price uses the fixed weights
{comparable 0.4, yield_based 0.4, market_based 0.2}, includes exactly the
methods whose `estimated_price` is present, and equals
Σ(price×weight)/Σ(weight of included methods) *rounded to the nearest
10,000*; the price is absent exactly when no method produced one, and the
qualitative label is "high" with ≥ 2 contributing methods, "medium" with
exactly one, and "low" when none contributed (weighted aggregation of
28,000,000 and 29,000,000 at weights .4/.4 gives 28,500,000). -/
theorem C1_amended (e : Estimates) :
    (methodWeight "comparable" = 4/10 ∧ methodWeight "yield_based" = 4/10 ∧
      methodWeight "market_based" = 2/10) ∧
    ((_calculate_weighted_average e).price = none ↔ includedContribs e = []) ∧
    (_calculate_weighted_average e).methods_used
      = (includedContribs e).map Prod.fst ∧
    (includedContribs e ≠ [] → (_calculate_weighted_average e).price =
      some (roundNeg4
        (((includedContribs e).map (fun mp => mp.2 * methodWeight mp.1)).sum /
         ((includedContribs e).map (fun mp => methodWeight mp.1)).sum))) ∧
    (_calculate_weighted_average e).confidence =
      (if includedContribs e = [] then "low"
       else if 2 ≤ (includedContribs e).length then "high" else "medium") ∧
    (_calculate_weighted_average
      { comparable := some { estimated_price := some 28000000 },
        yield_based := some { estimated_price := some 29000000 },
        market_based := none }).price = some 28500000 := by
  rw [calculate_weighted_average_eq]
  refine ⟨⟨rfl, rfl, rfl⟩, ?_, ?_, ?_, ?_, ?_⟩
  · by_cases h : includedContribs e = [] <;> simp [h]
  · by_cases h : includedContribs e = [] <;> simp [h]
  · intro h; rw [if_neg h]
  · by_cases h : includedContribs e = [] <;> simp [h]
  · rw [calculate_weighted_average_eq, if_neg (by decide)]
    have hc : includedContribs
        { comparable := some { estimated_price := some 28000000 },
          yield_based := some { estimated_price := some 29000000 },
          market_based := none }
        = [("comparable", 28000000), ("yield_based", 29000000)] := rfl
    rw [hc]
    have hw1 : methodWeight "comparable" = 4/10 := rfl
    have hw2 : methodWeight "yield_based" = 4/10 := rfl
    simp only [List.map_cons, List.map_nil, List.sum_cons, List.sum_nil,
      hw1, hw2, add_zero]
    have h1 : ((28000000 : ℚ) * (4/10) + 29000000 * (4/10)) / (4/10 + 4/10)
        = ((2850 : ℤ) : ℚ) * 10000 := by norm_num
    rw [h1, roundNeg4_of_int_mul 2850]
    norm_num

/-- Witness for C1 amended, instantiating the one hypothesis-guarded
conjunct at a concrete single-method estimates mapping. -/
theorem C1_amended_witness :
    (_calculate_weighted_average
      { comparable := some { estimated_price := some 28000001 },
        yield_based := none, market_based := none }).price =
      some (roundNeg4
        (((includedContribs
            { comparable := some { estimated_price := some 28000001 },
              yield_based := none, market_based := none }).map
            (fun mp => mp.2 * methodWeight mp.1)).sum /
         ((includedContribs
            { comparable := some { estimated_price := some 28000001 },
              yield_based := none, market_based := none }).map
            (fun mp => methodWeight mp.1)).sum)) :=
  (C1_amended _).2.2.2.1 (by rw [includedContribs_single]; simp)

/-- C2: the numeric confidence score equals min(A+B+C, 1) with
A = min(0.3·n, 0.6) for n the number of methods with a present price,
B = min(0.1·comparable_count, 0.2), and C (only when ≥ 2 methods
succeeded) = max(0, 0.2 − 0.5·cv), cv = sqrt(population variance)/mean of
the successful prices; and the score maps to "high" at ≥ 0.7, "medium" at
≥ 0.4, else "low". -/
theorem C2_confidence_score (sq : ℚ → ℚ) (e : Estimates) (score : ℚ)
    (compR yieldR marketR : ApproachResult) (p : PropertyData)
    (ms : List String) :
    _calculate_confidence_score sq e = specConfidenceScore sq e ∧
    confidenceLabel score = (if 7/10 ≤ score then "high"
      else if 4/10 ≤ score then "medium" else "low") ∧
    (estimate_price sq compR yieldR marketR p ms).confidence
      = confidenceLabel
          ((estimate_price sq compR yieldR marketR p ms).confidence_score) := by
  refine ⟨?_, rfl, rfl⟩
  simp only [_calculate_confidence_score, specConfidenceScore,
    length_filter_isSome_eq_length_filterMap]
  set P := e.values.filterMap (fun r => r.estimated_price) with hP
  set cc : ℕ := (match e.comparable with
    | some r => r.comparable_count
    | none => 0) with hcc
  set avg := P.sum / (P.length : ℚ) with havg
  set var := (P.map (fun q => (q - avg) ^ 2)).sum / (P.length : ℚ) with hvar
  by_cases h2 : 2 ≤ P.length
  · simp only [if_pos h2]
    by_cases hz : avg = 0
    · rw [if_pos hz, hz, div_zero]; ring_nf
    · rw [if_neg hz]; ring_nf
      rw [mul_comm (sq var / avg) ((1 : ℚ)/2)]
  · simp only [if_neg h2]; ring_nf

lemma mem_ite_toList {b : Prop} [Decidable b] {x r : ApproachResult}
    (h : r ∈ (if b then some x else none).toList) : r = x := by
  by_cases hb : b
  · rw [if_pos hb] at h; simpa using h
  · rw [if_neg hb] at h; simp at h

lemma snd_mem_values_of_mem_items (e : Estimates) (mr : String × ApproachResult)
    (h : mr ∈ e.items) : mr.2 ∈ e.values := by
  unfold Estimates.items at h
  unfold Estimates.values
  rcases List.mem_append.mp h with h12 | h3
  · rcases List.mem_append.mp h12 with h1 | h2
    · obtain ⟨r, hr, he⟩ := List.mem_map.mp h1
      subst he
      exact List.mem_append.mpr (Or.inl (List.mem_append.mpr (Or.inl hr)))
    · obtain ⟨r, hr, he⟩ := List.mem_map.mp h2
      subst he
      exact List.mem_append.mpr (Or.inl (List.mem_append.mpr (Or.inr hr)))
  · obtain ⟨r, hr, he⟩ := List.mem_map.mp h3
    subst he
    exact List.mem_append.mpr (Or.inr hr)

lemma includedContribs_eq_nil_of_none (e : Estimates)
    (h : ∀ r ∈ e.values, r.estimated_price = none) : includedContribs e = [] := by
  refine List.filterMap_eq_nil_iff.mpr (fun mr hmr => ?_)
  rw [h mr.2 (snd_mem_values_of_mem_items e mr hmr)]; rfl

lemma filter_isSome_eq_nil_of_none (l : List ApproachResult)
    (h : ∀ r ∈ l, r.estimated_price = none) :
    l.filter (fun r => r.estimated_price.isSome) = [] :=
  List.filter_eq_nil_iff.mpr (fun r hr => by rw [h r hr]; simp)

lemma filterMap_price_eq_nil_of_none (l : List ApproachResult)
    (h : ∀ r ∈ l, r.estimated_price = none) :
    l.filterMap (fun r => r.estimated_price) = [] :=
  List.filterMap_eq_nil_iff.mpr (fun r hr => h r hr)

lemma match_comparable_count (o : Option ApproachResult) :
    (match o with
      | some r => r.comparable_count
      | none => 0) = (o.getD {}).comparable_count := by
  cases o <;> rfl

/-- A failed comparable approach result that still reports one comparable
(the shape of the "insufficient comparables" branch at count 1). -/
def comparableFailOne : ApproachResult :=
  { estimated_price := none, comparable_count := 1,
    error := some "類似物件が不足しています" }

/-- C8 counterexample: an estimation in which the single requested
comparable approach fails but still reports `comparable_count = 1` returns
a confidence score of 0.1, not the 0 the claim states (contribution B of
the score keys on the reported comparable count even when the method
produced no price). -/
theorem C8_counterexample :
    (estimate_price (fun q => q) comparableFailOne {} {} {}
      ["comparable"]).final_estimate.price = none ∧
    (estimate_price (fun q => q) comparableFailOne {} {} {}
      ["comparable"]).recommendations = [RecMsg.insufficientData] ∧
    (estimate_price (fun q => q) comparableFailOne {} {} {}
      ["comparable"]).confidence_score = 1/10 ∧
    (1 : ℚ)/10 ≠ 0 := by
  refine ⟨rfl, rfl, ?_, by norm_num⟩
  show _calculate_confidence_score (fun q => q)
    { comparable := some comparableFailOne,
      yield_based := none, market_based := none } = 1/10
  simp only [_calculate_confidence_score, Estimates.values, Option.toList,
    comparableFailOne, List.append_nil, List.nil_append, List.filter,
    List.filterMap, Option.isSome_none, Bool.false_eq_true, if_false]
  norm_num

/-- C8 amended: when no approach produces a price, `estimate_price`
returns normally (the embedding is a total function) with the final price
absent and exactly one explanatory recommendation; the confidence score is
min(0.1 × the comparable method's reported comparable_count, 0.2) — this
is 0 whenever the comparable approach reports zero comparables (the only
reachable count on the unpatched failure paths), but not 0 in general. -/
theorem C8_amended (sq : ℚ → ℚ) (compR yieldR marketR : ApproachResult)
    (p : PropertyData) (ms : List String)
    (hc : compR.estimated_price = none) (hy : yieldR.estimated_price = none)
    (hm : marketR.estimated_price = none) :
    (estimate_price sq compR yieldR marketR p ms).final_estimate.price = none ∧
    (estimate_price sq compR yieldR marketR p ms).recommendations
      = [RecMsg.insufficientData] ∧
    (estimate_price sq compR yieldR marketR p ms).confidence_score =
      min ((((estimate_price sq compR yieldR marketR p
          ms).estimates.comparable.getD {}).comparable_count : ℚ) * (1/10))
        (2/10) := by
  have hvals : ∀ r ∈ (estimate_price sq compR yieldR marketR p ms).estimates.values,
      r.estimated_price = none := by
    intro r hr
    rw [show (estimate_price sq compR yieldR marketR p ms).estimates.values
      = (((if "comparable" ∈ (if ms = [] then fullMethods else ms)
            then some compR else none).toList ++
          (if "yield_based" ∈ (if ms = [] then fullMethods else ms)
            then some yieldR else none).toList) ++
         (if "market_based" ∈ (if ms = [] then fullMethods else ms)
            then some marketR else none).toList) from rfl] at hr
    rcases List.mem_append.mp hr with h12 | h3
    · rcases List.mem_append.mp h12 with h1 | h2
      · rw [mem_ite_toList h1]; exact hc
      · rw [mem_ite_toList h2]; exact hy
    · rw [mem_ite_toList h3]; exact hm
  have hinc : includedContribs
      (estimate_price sq compR yieldR marketR p ms).estimates = [] :=
    includedContribs_eq_nil_of_none _ hvals
  have hfe : (estimate_price sq compR yieldR marketR p ms).final_estimate
      = { price := none, methods_used := [], confidence := "low" } := by
    rw [show (estimate_price sq compR yieldR marketR p ms).final_estimate
        = _calculate_weighted_average
            (estimate_price sq compR yieldR marketR p ms).estimates from rfl,
      calculate_weighted_average_eq, if_pos hinc]
  refine ⟨by rw [hfe], ?_, ?_⟩
  · rw [show (estimate_price sq compR yieldR marketR p ms).recommendations
        = _generate_recommendations
            (estimate_price sq compR yieldR marketR p ms).final_estimate
            (estimate_price sq compR yieldR marketR p ms).confidence_score
            (estimate_price sq compR yieldR marketR p ms).estimates p from rfl,
      hfe]
    rfl
  · rw [show (estimate_price sq compR yieldR marketR p ms).confidence_score
        = _calculate_confidence_score sq
            (estimate_price sq compR yieldR marketR p ms).estimates from rfl]
    simp only [_calculate_confidence_score,
      filter_isSome_eq_nil_of_none _ hvals,
      filterMap_price_eq_nil_of_none _ hvals, match_comparable_count,
      List.length_nil]
    rw [if_neg (by norm_num)]
    have h0 : min (((0 : ℕ) : ℚ) * (3/10)) (6/10) = 0 := by norm_num
    rw [h0, zero_add]
    exact min_eq_left (le_trans (min_le_right _ _) (by norm_num))

/-- Witness for C8 amended at a concrete all-approaches-failed estimation. -/
theorem C8_amended_witness :
    (estimate_price (fun q => q) { comparable_count := 2 } {} {} {}
      []).final_estimate.price = none ∧
    (estimate_price (fun q => q) { comparable_count := 2 } {} {} {}
      []).recommendations = [RecMsg.insufficientData] ∧
    (estimate_price (fun q => q) { comparable_count := 2 } {} {} {}
      []).confidence_score =
      min ((((estimate_price (fun q => q) { comparable_count := 2 } {} {} {}
          []).estimates.comparable.getD {}).comparable_count : ℚ) * (1/10))
        (2/10) :=
  C8_amended (fun q => q) { comparable_count := 2 } {} {} {} [] rfl rfl rfl

/-- A property descriptor with no construction year. -/
def propNoYear : PropertyData :=
  { address := "", construction_year := none, floor_area := some 50 }

/-- The same property with construction year 2010 (building age 15 as of
2025, i.e. the age the claim says is assumed when the year is absent). -/
def propYear2010 : PropertyData :=
  { address := "", construction_year := some 2010, floor_area := some 50 }

/-- A comparable of age 15 at the same floor area and zero distance. -/
def compAge15 : Comparable :=
  { price := 1000000, floor_area := some 50, building_age := some 15,
    distance := some 0, property_type := "apartment", price_per_sqm := 20000 }

/-- A concrete land-price record. -/
def lp400k : LandPriceData := { price_per_sqm := 400000, source := "地価公示API" }

/-- C9 counterexample: with the construction year absent, the
comparable-price adjustment assumes a subject age of 0 (construction year
defaults to the current year) and the market-based approach assumes
construction year 2000 — not the 15-year building age the claim states
(which only the comparable-fetch step assumes).  At current year 2025 an
age-15 comparable is discounted to 850,000 instead of the 1,000,000 the
15-year assumption would give, and the building value is 4,500,000 instead
of 6,300,000. -/
theorem C9_counterexample :
    buildingAgeOf 2025 none = 15 ∧
    _adjust_comparable_price 2025 compAge15 propNoYear = 850000 ∧
    _adjust_comparable_price 2025 compAge15 propYear2010 = 1000000 ∧
    (850000 : ℚ) ≠ 1000000 ∧
    (_market_trend_approach 2025 (Except.ok lp400k)
      propNoYear).building_value = some 4500000 ∧
    (_market_trend_approach 2025 (Except.ok lp400k)
      propYear2010).building_value = some 6300000 ∧
    some (4500000 : ℚ) ≠ some (6300000 : ℚ) := by
  refine ⟨rfl, ?_, ?_, by norm_num, ?_, ?_, by simp⟩
  · simp only [_adjust_comparable_price, compAge15, propNoYear, Option.getD]
    norm_num
  · simp only [_adjust_comparable_price, compAge15, propYear2010, Option.getD]
    norm_num
  · simp only [_market_trend_approach, _estimate_building_value, lp400k,
      propNoYear, Option.getD]
    norm_num
  · simp only [_market_trend_approach, _estimate_building_value, lp400k,
      propYear2010, Option.getD]
    norm_num

/-- C9 amended: an absent construction year means an assumed building age
of 15 *only* in the comparable-fetch step; the comparable price adjustment
behaves as if the construction year were the current year (subject age 0),
and the market-based approach behaves as if the construction year were
2000. -/
theorem C9_amended (currentYear : ℤ) (p : PropertyData)
    (h : p.construction_year = none) :
    buildingAgeOf currentYear p.construction_year = 15 ∧
    (∀ c : Comparable, _adjust_comparable_price currentYear c p
       = _adjust_comparable_price currentYear c
           { p with construction_year := some currentYear }) ∧
    (∀ lp : LandPriceData, _market_trend_approach currentYear (Except.ok lp) p
       = _market_trend_approach currentYear (Except.ok lp)
           { p with construction_year := some 2000 }) := by
  refine ⟨by rw [h]; rfl, ?_, ?_⟩
  · intro c
    simp only [_adjust_comparable_price, h]
    rfl
  · intro lp
    simp only [_market_trend_approach, h]
    rfl

/-- Witness for C9 amended at the concrete no-construction-year property. -/
theorem C9_amended_witness :
    buildingAgeOf 2025 propNoYear.construction_year = 15 ∧
    _adjust_comparable_price 2025 compAge15 propNoYear
      = _adjust_comparable_price 2025 compAge15
          { propNoYear with construction_year := some 2025 } ∧
    _market_trend_approach 2025 (Except.ok lp400k) propNoYear
      = _market_trend_approach 2025 (Except.ok lp400k)
          { propNoYear with construction_year := some 2000 } := by
  obtain ⟨h1, h2, h3⟩ := C9_amended 2025 propNoYear rfl
  exact ⟨h1, h2 compAge15, h3 lp400k⟩

/-- A concrete deterministic random oracle: every draw returns the lower
bound of its range. -/
def oracleLo : RandOracle :=
  { randInt := fun _ lo _ => lo,
    uniform := fun _ a _ => a,
    randInt_mem := fun _ lo _ h => ⟨le_refl lo, h⟩ }

/-- C6 counterexample: on the upstream-failure path, `get_market_trends`
and `search_comparable_sales` return their fallback value with the cache
left completely unchanged (still the empty initial cache), so the claim
that these two operations "write their result to the cache regardless of
path" fails on the fallback path. -/
theorem C6_counterexample :
    (get_market_trends initialClient "東京都港区" "apartment" 0
      (Except.error "API error")).2 = initialClient ∧
    (get_market_trends initialClient "東京都港区" "apartment" 0
      (Except.error "API error")).1.confidence = "低" ∧
    (search_comparable_sales initialClient 0 0 "apartment" 10 50 0
      (Except.error ()) oracleLo).2 = initialClient ∧
    initialClient.cache (_get_cache_key "market_trends"
      [("address", "東京都港区"), ("type", "apartment")]) = none :=
  ⟨rfl, rfl, rfl, rfl⟩

/-- C6 amended: *all four* operations return their fallback value without
writing it to the cache on an upstream failure (the cache is unchanged on
every fallback path, so a later call retries upstream), and each caches
its result only on the successful-upstream path. -/
theorem C6_amended (c : MarketDataClient) (address ptype : String)
    (lat lon now floor_area : ℚ) (building_age : ℤ) (o : RandOracle)
    (e₁ e₂ : String) (landV : LandPriceData) (yldV : ℚ)
    (compsV : List Comparable) (trendsV : TrendData) :
    (get_land_price_data c address now (Except.error e₁)).2 = c ∧
    (get_area_yield_rate c address now (Except.error ())).2 = c ∧
    (search_comparable_sales c lat lon ptype building_age floor_area now
        (Except.error ()) o).2 = c ∧
    (get_market_trends c address ptype now (Except.error e₂)).2 = c ∧
    (_is_cache_valid c (_get_cache_key "land_price" [("address", address)])
        now = false →
      (get_land_price_data c address now (Except.ok landV)).2.cache
          (_get_cache_key "land_price" [("address", address)])
        = some (CacheVal.land landV)) ∧
    (_is_cache_valid c (_get_cache_key "area_yield" [("address", address)])
        now = false →
      (get_area_yield_rate c address now (Except.ok yldV)).2.cache
          (_get_cache_key "area_yield" [("address", address)])
        = some (CacheVal.yld yldV)) ∧
    (_is_cache_valid c (_get_cache_key "comparable_sales"
        [("lat", toString lat), ("lon", toString lon), ("type", ptype),
         ("age", toString building_age), ("area", toString floor_area)])
        now = false →
      (search_comparable_sales c lat lon ptype building_age floor_area now
          (Except.ok compsV) o).2.cache
          (_get_cache_key "comparable_sales"
            [("lat", toString lat), ("lon", toString lon), ("type", ptype),
             ("age", toString building_age), ("area", toString floor_area)])
        = some (CacheVal.comps compsV)) ∧
    (_is_cache_valid c (_get_cache_key "market_trends"
        [("address", address), ("type", ptype)]) now = false →
      (get_market_trends c address ptype now (Except.ok trendsV)).2.cache
          (_get_cache_key "market_trends" [("address", address), ("type", ptype)])
        = some (CacheVal.trends trendsV)) := by
  refine ⟨?_, ?_, ?_, ?_, ?_, ?_, ?_, ?_⟩
  · simp only [get_land_price_data]
    split
    · rfl
    · rfl
  · simp only [get_area_yield_rate]
    split
    · rfl
    · rfl
  · simp only [search_comparable_sales]
    split
    · rfl
    · rfl
  · simp only [get_market_trends]
    split
    · rfl
    · rfl
  · intro hmiss
    have hread : cacheRead c
        (_get_cache_key "land_price" [("address", address)]) now = none := by
      unfold cacheRead; rw [hmiss]; simp
    simp [get_land_price_data, hread, _set_cache]
  · intro hmiss
    have hread : cacheRead c
        (_get_cache_key "area_yield" [("address", address)]) now = none := by
      unfold cacheRead; rw [hmiss]; simp
    simp [get_area_yield_rate, hread, _set_cache]
  · intro hmiss
    have hread : cacheRead c
        (_get_cache_key "comparable_sales"
          [("lat", toString lat), ("lon", toString lon), ("type", ptype),
           ("age", toString building_age), ("area", toString floor_area)])
        now = none := by
      unfold cacheRead; rw [hmiss]; simp
    simp [search_comparable_sales, hread, _set_cache]
  · intro hmiss
    have hread : cacheRead c
        (_get_cache_key "market_trends"
          [("address", address), ("type", ptype)]) now = none := by
      unfold cacheRead; rw [hmiss]; simp
    simp [get_market_trends, hread, _set_cache]

/-- Witness for C6 amended at the empty initial cache and concrete data. -/
theorem C6_amended_witness :
    (get_land_price_data initialClient "東京都" 0 (Except.error "down")).2
      = initialClient ∧
    (get_area_yield_rate initialClient "東京都" 0 (Except.error ())).2
      = initialClient ∧
    (search_comparable_sales initialClient 0 0 "apartment" 10 50 0
        (Except.error ()) oracleLo).2 = initialClient ∧
    (get_market_trends initialClient "東京都" "apartment" 0
        (Except.error "down")).2 = initialClient ∧
    (_is_cache_valid initialClient
        (_get_cache_key "land_price" [("address", "東京都")]) 0 = false →
      (get_land_price_data initialClient "東京都" 0
          (Except.ok lp400k)).2.cache
          (_get_cache_key "land_price" [("address", "東京都")])
        = some (CacheVal.land lp400k)) ∧
    (_is_cache_valid initialClient
        (_get_cache_key "area_yield" [("address", "東京都")]) 0 = false →
      (get_area_yield_rate initialClient "東京都" 0 (Except.ok 45)).2.cache
          (_get_cache_key "area_yield" [("address", "東京都")])
        = some (CacheVal.yld 45)) ∧
    (_is_cache_valid initialClient
        (_get_cache_key "comparable_sales"
          [("lat", toString (0 : ℚ)), ("lon", toString (0 : ℚ)),
           ("type", "apartment"), ("age", toString (10 : ℤ)),
           ("area", toString (50 : ℚ))]) 0 = false →
      (search_comparable_sales initialClient 0 0 "apartment" 10 50 0
          (Except.ok []) oracleLo).2.cache
          (_get_cache_key "comparable_sales"
            [("lat", toString (0 : ℚ)), ("lon", toString (0 : ℚ)),
             ("type", "apartment"), ("age", toString (10 : ℤ)),
             ("area", toString (50 : ℚ))])
        = some (CacheVal.comps [])) ∧
    (_is_cache_valid initialClient
        (_get_cache_key "market_trends"
          [("address", "東京都"), ("type", "apartment")]) 0 = false →
      (get_market_trends initialClient "東京都" "apartment" 0
          (Except.ok (_fetch_market_trends "東京都" "apartment"))).2.cache
          (_get_cache_key "market_trends"
            [("address", "東京都"), ("type", "apartment")])
        = some (CacheVal.trends (_fetch_market_trends "東京都" "apartment"))) :=
  C6_amended initialClient "東京都" "apartment" 0 0 0 50 10 oracleLo
    "down" "down" lp400k 45 [] (_fetch_market_trends "東京都" "apartment")

lemma foldl_min_le (t : List ℚ) : ∀ a : ℚ,
    t.foldl min a ≤ a ∧ ∀ x ∈ t, t.foldl min a ≤ x := by
  induction t with
  | nil => intro a; exact ⟨le_refl a, by simp⟩
  | cons h t ih =>
    intro a
    refine ⟨le_trans (ih (min a h)).1 (min_le_left a h), ?_⟩
    intro x hx
    rcases List.mem_cons.mp hx with rfl | hx
    · exact le_trans (ih (min a x)).1 (min_le_right a x)
    · exact (ih (min a h)).2 x hx

lemma foldl_max_ge (t : List ℚ) : ∀ a : ℚ,
    a ≤ t.foldl max a ∧ ∀ x ∈ t, x ≤ t.foldl max a := by
  induction t with
  | nil => intro a; exact ⟨le_refl a, by simp⟩
  | cons h t ih =>
    intro a
    refine ⟨le_trans (le_max_left a h) (ih (max a h)).1, ?_⟩
    intro x hx
    rcases List.mem_cons.mp hx with rfl | hx
    · exact le_trans (le_max_right a x) (ih (max a x)).1
    · exact (ih (max a h)).2 x hx

lemma foldl_min_mem (t : List ℚ) : ∀ a : ℚ,
    t.foldl min a = a ∨ t.foldl min a ∈ t := by
  induction t with
  | nil => intro a; exact Or.inl rfl
  | cons h t ih =>
    intro a
    rw [List.foldl_cons]
    rcases ih (min a h) with heq | hmem
    · rcases min_choice a h with hc | hc
      · exact Or.inl (by rw [heq, hc])
      · exact Or.inr (by rw [heq, hc]; exact List.mem_cons_self h t)
    · exact Or.inr (List.mem_cons_of_mem h hmem)

lemma foldl_max_mem (t : List ℚ) : ∀ a : ℚ,
    t.foldl max a = a ∨ t.foldl max a ∈ t := by
  induction t with
  | nil => intro a; exact Or.inl rfl
  | cons h t ih =>
    intro a
    rw [List.foldl_cons]
    rcases ih (max a h) with heq | hmem
    · rcases max_choice a h with hc | hc
      · exact Or.inl (by rw [heq, hc])
      · exact Or.inr (by rw [heq, hc]; exact List.mem_cons_self h t)
    · exact Or.inr (List.mem_cons_of_mem h hmem)

lemma listMin_le (l : List ℚ) (x : ℚ) (hx : x ∈ l) : listMin l ≤ x := by
  cases l with
  | nil => simp at hx
  | cons h t =>
    rcases List.mem_cons.mp hx with rfl | hx
    · exact (foldl_min_le t x).1
    · exact (foldl_min_le t h).2 x hx

lemma le_listMax (l : List ℚ) (x : ℚ) (hx : x ∈ l) : x ≤ listMax l := by
  cases l with
  | nil => simp at hx
  | cons h t =>
    rcases List.mem_cons.mp hx with rfl | hx
    · exact (foldl_max_ge t x).1
    · exact (foldl_max_ge t h).2 x hx

lemma listMin_mem (l : List ℚ) (h : l ≠ []) : listMin l ∈ l := by
  cases l with
  | nil => exact absurd rfl h
  | cons a t =>
    rcases foldl_min_mem t a with heq | hmem
    · have h2 : listMin (a :: t) = a := heq
      rw [h2]; exact List.mem_cons_self a t
    · exact List.mem_cons_of_mem a hmem

lemma listMax_mem (l : List ℚ) (h : l ≠ []) : listMax l ∈ l := by
  cases l with
  | nil => exact absurd rfl h
  | cons a t =>
    rcases foldl_max_mem t a with heq | hmem
    · have h2 : listMax (a :: t) = a := heq
      rw [h2]; exact List.mem_cons_self a t
    · exact List.mem_cons_of_mem a hmem

lemma median_mem (l : List ℚ) (h : l ≠ []) :
    (l.mergeSort (fun a b => decide (a ≤ b))).getD (l.length / 2) 0 ∈ l := by
  have hlen : (l.mergeSort (fun a b => decide (a ≤ b))).length = l.length :=
    List.length_mergeSort l
  have hpos : 0 < l.length := List.length_pos.mpr h
  have hidx : l.length / 2 < (l.mergeSort (fun a b => decide (a ≤ b))).length := by
    rw [hlen]; exact Nat.div_lt_self hpos (by norm_num)
  rw [List.getD_eq_getElem?_getD, List.getElem?_eq_getElem hidx]
  exact (List.mem_mergeSort).mp (List.getElem_mem hidx)

lemma take_le_drop_of_pairwise {α : Type} (R : α → α → Prop) (l : List α)
    (n : ℕ) (h : l.Pairwise R) :
    ∀ x ∈ l.take n, ∀ y ∈ l.drop n, R x y := by
  have h2 : (l.take n ++ l.drop n).Pairwise R := by
    rw [List.take_append_drop]; exact h
  exact (List.pairwise_append.mp h2).2.2

/-- The adjusted prices of a comparables list against one subject property. -/
def adjustedPricesOf (currentYear : ℤ) (comps : List Comparable)
    (p : PropertyData) : List ℚ :=
  comps.map (fun c => _adjust_comparable_price currentYear c p)

lemma adjust_formula (currentYear : ℤ) (c : Comparable) (p : PropertyData)
    (ca ta d : ℚ) (ba cy : ℤ)
    (hca : c.floor_area = some ca) (hca0 : ca ≠ 0)
    (hba : c.building_age = some ba) (hd : c.distance = some d)
    (hta : p.floor_area = some ta) (hcy : p.construction_year = some cy) :
    _adjust_comparable_price currentYear c p
      = c.price * (ta / ca)
        * (1 - ((ba : ℚ) - ((currentYear : ℚ) - (cy : ℚ))) * (1/100))
        * max (95/100) (1 - (d / 1000) * (5/100)) := by
  simp only [_adjust_comparable_price, hca, hba, hd, hta, hcy, Option.getD_some]
  rw [if_pos hca0]
  push_cast
  ring

/-- A comparable one year older than the subject (subject age 15 in 2025). -/
def compA : Comparable :=
  { price := 1000000, floor_area := some 50, building_age := some 16,
    distance := some 100, property_type := "apartment", price_per_sqm := 20000 }

/-- The same comparable but two years older than the subject. -/
def compB : Comparable :=
  { price := 1000000, floor_area := some 50, building_age := some 17,
    distance := some 100, property_type := "apartment", price_per_sqm := 20000 }

/-- Subject property of age 15 in 2025. -/
def propC4 : PropertyData :=
  { address := "", construction_year := some 2010, floor_area := some 50 }

/-- C4 counterexample: between two otherwise identical comparables, the one
whose age exceeds the subject's by more gets a *smaller* age multiplier and
hence a strictly lower adjusted price — the claim's "the multiplier
increases as the comparable's age exceeds the subject's" fails. -/
theorem C4_counterexample :
    compA.building_age = some 16 ∧ compB.building_age = some 17 ∧
    propC4.construction_year = some 2010 ∧
    _adjust_comparable_price 2025 compB propC4
      < _adjust_comparable_price 2025 compA propC4 := by
  refine ⟨rfl, rfl, rfl, ?_⟩
  rw [adjust_formula 2025 compB propC4 50 50 100 17 2010 rfl (by norm_num)
        rfl rfl rfl rfl,
      adjust_formula 2025 compA propC4 50 50 100 16 2010 rfl (by norm_num)
        rfl rfl rfl rfl]
  have hmax : max ((95 : ℚ)/100) (1 - ((100 : ℚ) / 1000) * (5/100)) = 199/200 := by
    rw [max_eq_right (by norm_num)]
    norm_num
  rw [hmax]
  show (1000000 : ℚ) * (50 / 50) * (1 - (17 - (2025 - 2010)) * (1 / 100)) * (199/200)
    < 1000000 * (50 / 50) * (1 - (16 - (2025 - 2010)) * (1 / 100)) * (199/200)
  norm_num

/-- C4 amended: each comparable's price is scaled by (subject floor area /
comparable floor area), by the age factor (1 − (comparable_age −
subject_age) × 0.01) — whose multiplier *decreases* as the comparable's
age exceeds the subject's — and by a distance factor with floor 0.95
losing up to 5% per 1000m; the approach's estimated price is the mean of
the adjusted prices rounded to the nearest 10,000, the reported range is
the min/max (rounded) and upper median of the adjusted set, and the
reported comparables are the first five of the (distance-sorted) input. -/
theorem C4_amended (currentYear : ℤ) (p : PropertyData)
    (comps : List Comparable) (c c₁ c₂ : Comparable)
    (ca ta d : ℚ) (ba b₁ b₂ cy : ℤ)
    (hca : c.floor_area = some ca) (hca0 : ca ≠ 0)
    (hba : c.building_age = some ba) (hd : c.distance = some d)
    (hta : p.floor_area = some ta) (hcy : p.construction_year = some cy) :
    (_adjust_comparable_price currentYear c p
      = c.price * (ta / ca)
        * (1 - ((ba : ℚ) - ((currentYear : ℚ) - (cy : ℚ))) * (1/100))
        * max (95/100) (1 - (d / 1000) * (5/100))) ∧
    (c₁.floor_area = some ca → c₂.floor_area = some ca →
     c₁.building_age = some b₁ → c₂.building_age = some b₂ →
     c₁.distance = some d → c₂.distance = some d →
     c₁.price = c₂.price → b₁ < b₂ →
     0 < c₁.price * (ta / ca) * max (95/100) (1 - (d / 1000) * (5/100)) →
     _adjust_comparable_price currentYear c₂ p
       < _adjust_comparable_price currentYear c₁ p) ∧
    (2 ≤ comps.length →
      ((_comparable_estimation_approach currentYear comps p).estimated_price
        = some (roundNeg4 ((adjustedPricesOf currentYear comps p).sum /
            ((adjustedPricesOf currentYear comps p).length : ℚ))) ∧
       (_comparable_estimation_approach currentYear comps p).comparable_count
        = comps.length ∧
       (_comparable_estimation_approach currentYear comps p).price_range
        = some { min := roundNeg4 (listMin (adjustedPricesOf currentYear comps p)),
                 max := roundNeg4 (listMax (adjustedPricesOf currentYear comps p)),
                 median := ((adjustedPricesOf currentYear comps p).mergeSort
                     (fun a b => decide (a ≤ b))).getD
                   ((adjustedPricesOf currentYear comps p).length / 2) 0 } ∧
       (∀ x ∈ adjustedPricesOf currentYear comps p,
          listMin (adjustedPricesOf currentYear comps p) ≤ x ∧
          x ≤ listMax (adjustedPricesOf currentYear comps p)) ∧
       listMin (adjustedPricesOf currentYear comps p)
         ∈ adjustedPricesOf currentYear comps p ∧
       listMax (adjustedPricesOf currentYear comps p)
         ∈ adjustedPricesOf currentYear comps p ∧
       ((adjustedPricesOf currentYear comps p).mergeSort
           (fun a b => decide (a ≤ b))).getD
         ((adjustedPricesOf currentYear comps p).length / 2) 0
         ∈ adjustedPricesOf currentYear comps p ∧
       (_comparable_estimation_approach currentYear comps p).comparables
        = comps.take 5)) ∧
    (List.Pairwise (fun a b => a.distance.getD 500 ≤ b.distance.getD 500) comps →
      ∀ x ∈ comps.take 5, ∀ y ∈ comps.drop 5,
        x.distance.getD 500 ≤ y.distance.getD 500) := by
  refine ⟨adjust_formula currentYear c p ca ta d ba cy hca hca0 hba hd hta hcy,
    ?_, ?_, ?_⟩
  · intro h1 h2 h3 h4 h5 h6 hpr hb hpos
    rw [adjust_formula currentYear c₂ p ca ta d b₂ cy h2 hca0 h4 h6 hta hcy,
        adjust_formula currentYear c₁ p ca ta d b₁ cy h1 hca0 h3 h5 hta hcy,
        ← hpr]
    have hA : (1 - ((b₂ : ℚ) - ((currentYear : ℚ) - (cy : ℚ))) * (1/100))
        < (1 - ((b₁ : ℚ) - ((currentYear : ℚ) - (cy : ℚ))) * (1/100)) := by
      have hbq : (b₁ : ℚ) < (b₂ : ℚ) := by exact_mod_cast hb
      linarith
    nlinarith [mul_pos hpos (sub_pos.mpr hA)]
  · intro hlen
    have hne : ¬ (comps.length < MIN_COMPARABLE_PROPERTIES) := by
      unfold MIN_COMPARABLE_PROPERTIES; omega
    have hcne : comps ≠ [] := by
      intro hc; rw [hc] at hlen; simp at hlen
    have hnil : adjustedPricesOf currentYear comps p ≠ [] := by
      unfold adjustedPricesOf
      intro hc
      have := congrArg List.length hc
      simp at this
      rw [this] at hlen; simp at hlen
    refine ⟨?_, ?_, ?_, ?_,
      listMin_mem _ hnil, listMax_mem _ hnil, median_mem _ hnil, ?_⟩
    · simp only [_comparable_estimation_approach]; rw [if_neg hne]; rfl
    · simp only [_comparable_estimation_approach]; rw [if_neg hne]
      simp [adjustedPricesOf]
    · simp only [_comparable_estimation_approach]; rw [if_neg hne]; rfl
    · intro x hx
      exact ⟨listMin_le _ x hx, le_listMax _ x hx⟩
    · simp only [_comparable_estimation_approach]; rw [if_neg hne]
  · intro hsorted
    exact take_le_drop_of_pairwise _ comps 5 hsorted

/-- Witness for C4 amended at a concrete subject property and a concrete
two-element distance-sorted comparables list. -/
theorem C4_amended_witness :
    _adjust_comparable_price 2025 compA propC4
      = compA.price * ((50 : ℚ) / 50)
        * (1 - ((16 : ℚ) - ((2025 : ℚ) - (2010 : ℚ))) * (1/100))
        * max (95/100) (1 - ((100 : ℚ) / 1000) * (5/100)) ∧
    _adjust_comparable_price 2025 compB propC4
      < _adjust_comparable_price 2025 compA propC4 ∧
    (_comparable_estimation_approach 2025 [compA, compB] propC4).estimated_price
      = some (roundNeg4 ((adjustedPricesOf 2025 [compA, compB] propC4).sum /
          ((adjustedPricesOf 2025 [compA, compB] propC4).length : ℚ))) ∧
    (_comparable_estimation_approach 2025 [compA, compB] propC4).comparables
      = [compA, compB].take 5 ∧
    (∀ x ∈ [compA, compB].take 5, ∀ y ∈ [compA, compB].drop 5,
       x.distance.getD 500 ≤ y.distance.getD 500) := by
  obtain ⟨h1, h2, h3, h4⟩ := C4_amended 2025 propC4 [compA, compB]
    compA compA compB 50 50 100 16 16 17 2010
    rfl (by norm_num) rfl rfl rfl rfl
  refine ⟨h1, ?_, ?_, ?_, ?_⟩
  · refine h2 rfl rfl rfl rfl rfl rfl rfl (by norm_num) ?_
    rw [show compA.price = (1000000 : ℚ) from rfl,
      max_eq_right (by norm_num : (95 : ℚ)/100 ≤ 1 - ((100 : ℚ)/1000) * (5/100))]
    norm_num
  · exact (h3 (by simp)).1
  · exact (h3 (by simp)).2.2.2.2.2.2.2
  · exact h4 (by simp [compA, compB])

lemma cacheRead_eq_some (c : MarketDataClient) (k : String) (now : ℚ)
    (v : CacheVal) (h : cacheRead c k now = some v) : c.cache k = some v := by
  unfold cacheRead at h
  split at h
  · exact h
  · exact absurd h (by simp)

lemma mock_length_bounds (o : RandOracle) (ptype : String) (age : ℤ) (area : ℚ) :
    3 ≤ (_generate_mock_comparable_data o ptype age area).length ∧
    (_generate_mock_comparable_data o ptype age area).length ≤ 8 := by
  obtain ⟨hlo, hhi⟩ := o.randInt_mem 0 3 8 (by norm_num)
  have hlen : (_generate_mock_comparable_data o ptype age area).length
      = (o.randInt 0 3 8).toNat := by
    simp only [_generate_mock_comparable_data]
    rw [List.length_mergeSort, List.length_map, List.length_range]
  constructor <;> rw [hlen] <;> omega

lemma search_run_length_bounds (o : RandOracle) (c : MarketDataClient)
    (now lat lon area : ℚ) (ptype : String) (age : ℤ)
    (hinv : ∀ k l, c.cache k = some (CacheVal.comps l) →
      3 ≤ l.length ∧ l.length ≤ 8) :
    (3 ≤ (search_comparable_sales c lat lon ptype age area now
        (Except.ok (_fetch_comparable_sales_from_api o ptype age area))
        o).1.length ∧
     (search_comparable_sales c lat lon ptype age area now
        (Except.ok (_fetch_comparable_sales_from_api o ptype age area))
        o).1.length ≤ 8) ∧
    (∀ k l, (search_comparable_sales c lat lon ptype age area now
        (Except.ok (_fetch_comparable_sales_from_api o ptype age area))
        o).2.cache k = some (CacheVal.comps l) →
      3 ≤ l.length ∧ l.length ≤ 8) := by
  have hmock := mock_length_bounds o ptype age area
  constructor
  · simp only [search_comparable_sales]
    split
    · rename_i v heq
      exact hinv _ v (cacheRead_eq_some _ _ _ _ heq)
    · exact hmock
  · simp only [search_comparable_sales]
    split
    · rename_i v heq
      exact hinv
    · intro k l h
      simp only [_set_cache] at h
      by_cases hk : k = _get_cache_key "comparable_sales"
          [("lat", toString lat), ("lon", toString lon), ("type", ptype),
           ("age", toString age), ("area", toString area)]
      · rw [if_pos hk] at h
        injection h with h2
        injection h2 with h3
        rw [← h3]
        exact hmock
      · rw [if_neg hk] at h
        exact hinv k l h

/-- C10: for every input and cache state whose comparable-sales entries
came from earlier fetches, `search_comparable_sales` fed by the mock
generator returns between 3 and 8 comparables (it is a total function, so
it never raises), the comparable approach's "insufficient comparables"
branch (< 2 comparables) is unreachable on such a result, and the full
geocode-fetch-estimate pipeline always produces a price; the branch can
only be taken when the data source is substituted. -/
theorem C10_mock_always_sufficient (o : RandOracle) (c : MarketDataClient)
    (now lat lon area : ℚ) (ptype : String) (age currentYear : ℤ)
    (p : PropertyData)
    (hinv : ∀ k l, c.cache k = some (CacheVal.comps l) →
      3 ≤ l.length ∧ l.length ≤ 8) :
    (3 ≤ (_generate_mock_comparable_data o ptype age area).length ∧
     (_generate_mock_comparable_data o ptype age area).length ≤ 8) ∧
    (3 ≤ (search_comparable_sales c lat lon ptype age area now
        (Except.ok (_fetch_comparable_sales_from_api o ptype age area))
        o).1.length ∧
     (search_comparable_sales c lat lon ptype age area now
        (Except.ok (_fetch_comparable_sales_from_api o ptype age area))
        o).1.length ≤ 8) ∧
    ¬ ((search_comparable_sales c lat lon ptype age area now
        (Except.ok (_fetch_comparable_sales_from_api o ptype age area))
        o).1.length < MIN_COMPARABLE_PROPERTIES) ∧
    (_comparable_estimation_approach currentYear
      (search_comparable_sales c lat lon ptype age area now
        (Except.ok (_fetch_comparable_sales_from_api o ptype age area))
        o).1 p).estimated_price.isSome = true ∧
    (comparableApproachRun currentYear c now o (some (lat, lon))
      p).1.estimated_price.isSome = true ∧
    (∀ k l, (search_comparable_sales c lat lon ptype age area now
        (Except.ok (_fetch_comparable_sales_from_api o ptype age area))
        o).2.cache k = some (CacheVal.comps l) →
      3 ≤ l.length ∧ l.length ≤ 8) := by
  obtain ⟨⟨h3, h8⟩, hpost⟩ :=
    search_run_length_bounds o c now lat lon area ptype age hinv
  have hbranch : ∀ (cs : List Comparable), 2 ≤ cs.length →
      (_comparable_estimation_approach currentYear cs p).estimated_price.isSome
        = true := by
    intro cs hcs
    simp only [_comparable_estimation_approach]
    rw [if_neg (by unfold MIN_COMPARABLE_PROPERTIES; omega)]
    rfl
  refine ⟨mock_length_bounds o ptype age area, ⟨h3, h8⟩, ?_, ?_, ?_, hpost⟩
  · unfold MIN_COMPARABLE_PROPERTIES
    omega
  · exact hbranch _ (by omega)
  · obtain ⟨⟨h3r, _⟩, _⟩ := search_run_length_bounds o c now lat lon
      (p.floor_area.getD 50) (p.type.getD "apartment")
      (buildingAgeOf currentYear p.construction_year) hinv
    exact hbranch _ (by omega)

/-- Witness for C10 at the empty cache, the all-lower-bounds oracle and a
concrete property. -/
theorem C10_mock_always_sufficient_witness :
    (3 ≤ (_generate_mock_comparable_data oracleLo "apartment" 10 50).length ∧
     (_generate_mock_comparable_data oracleLo "apartment" 10 50).length ≤ 8) ∧
    (3 ≤ (search_comparable_sales initialClient 35 139 "apartment" 10 50 0
        (Except.ok (_fetch_comparable_sales_from_api oracleLo "apartment" 10 50))
        oracleLo).1.length ∧
     (search_comparable_sales initialClient 35 139 "apartment" 10 50 0
        (Except.ok (_fetch_comparable_sales_from_api oracleLo "apartment" 10 50))
        oracleLo).1.length ≤ 8) ∧
    ¬ ((search_comparable_sales initialClient 35 139 "apartment" 10 50 0
        (Except.ok (_fetch_comparable_sales_from_api oracleLo "apartment" 10 50))
        oracleLo).1.length < MIN_COMPARABLE_PROPERTIES) ∧
    (_comparable_estimation_approach 2025
      (search_comparable_sales initialClient 35 139 "apartment" 10 50 0
        (Except.ok (_fetch_comparable_sales_from_api oracleLo "apartment" 10 50))
        oracleLo).1 propC4).estimated_price.isSome = true ∧
    (comparableApproachRun 2025 initialClient 0 oracleLo (some (35, 139))
      propC4).1.estimated_price.isSome = true ∧
    (∀ k l, (search_comparable_sales initialClient 35 139 "apartment" 10 50 0
        (Except.ok (_fetch_comparable_sales_from_api oracleLo "apartment" 10 50))
        oracleLo).2.cache k = some (CacheVal.comps l) →
      3 ≤ l.length ∧ l.length ≤ 8) :=
  C10_mock_always_sufficient oracleLo initialClient 0 35 139 50 "apartment"
    10 2025 propC4 (fun k l h => by simp [initialClient] at h)
